import Mathlib

/-!
Verification of the ORTOFON `.eaf` transcript validator (`validate.py`).

The embedding models the parsed XML document as a tree of elements
(`XElem`), each carrying its tag, attribute list, optional text content,
source line, and children.  The XPath queries used by the validator are
modelled by `collectE`, a preorder traversal that returns, in document
order, every element satisfying the hit predicate `q` that has a proper
ancestor satisfying `p` (with `inside` recording whether such an ancestor
has already been seen).  Plain `//X[q]` queries are the special case
`inside = true`.

Each check of the validator is modelled twice, faithfully to the source:
an error-list function (`*_errors`, the `errors` accumulator of the Python
function) and an `Except`-valued function that raises precisely when the
list is non-empty.  The aggregator `verify` runs every check, catching its
error and concatenating the logs, exactly as the Python `verify` does.
-/

/-- An XML element: tag, attributes, text content (`none` when absent),
source line, children. -/
inductive XElem : Type where
  | mk : String → List (String × String) → Option String → Nat → List XElem → XElem

def XElem.tag : XElem → String
  | .mk t _ _ _ _ => t

def XElem.attribs : XElem → List (String × String)
  | .mk _ a _ _ _ => a

def XElem.text : XElem → Option String
  | .mk _ _ x _ _ => x

def XElem.sourceline : XElem → Nat
  | .mk _ _ _ l _ => l

def XElem.children : XElem → List XElem
  | .mk _ _ _ _ c => c

/-- A parsed document: `docinfo.URL` plus the root element. -/
structure XTree : Type where
  url : String
  root : XElem

/-- `element.get(name)`: the value of attribute `name`, if present. -/
def getAttr (e : XElem) (name : String) : Option String :=
  (e.attribs.find? (fun kv => kv.1 == name)).map (fun kv => kv.2)

/-- `element.get(name, default)`: attribute lookup with a default. -/
def getAttrD (e : XElem) (name dflt : String) : String :=
  (getAttr e name).getD dflt

mutual

/-- The XPath engine: traverse `e` in preorder and collect (in document
order) every element satisfying `q` whose flag `inside` is set, where
`inside` is propagated to the children of any element satisfying `p`.
With `inside = false` at the root this is `//*[p]//*[q]` (elements
matching `q` strictly below an element matching `p`); with
`inside = true` and `p = fun _ => true` it is plain `//*[q]`. -/
def collectE (q p : XElem → Bool) (inside : Bool) : XElem → List XElem
  | .mk t a x l cs =>
    (if inside && q (.mk t a x l cs) then [XElem.mk t a x l cs] else [])
      ++ collectL q p (inside || p (.mk t a x l cs)) cs

/-- `collectE` mapped over a list of sibling subtrees. -/
def collectL (q p : XElem → Bool) (inside : Bool) : List XElem → List XElem
  | [] => []
  | c :: cs => collectE q p inside c ++ collectL q p inside cs

end

/-- `tree.xpath("//*[q]")`: all elements of the document satisfying `q`,
in document order. -/
def xpathAll (q : XElem → Bool) (t : XTree) : List XElem :=
  collectE q (fun _ => true) true t.root

/-- `tree.xpath("//*[p]//*[q]")`: all elements satisfying `q` nested
strictly below some element satisfying `p`, in document order. -/
def xpathNested (p q : XElem → Bool) (t : XTree) : List XElem :=
  collectE q p false t.root

/-- Python `s.split(" ")[0]`: the part of `s` before its first space
(`s` itself when it has no space, `""` when `s` is empty or starts with
a space). -/
def splitFirst (s : String) : String :=
  String.mk (s.data.takeWhile (fun c => !(c == ' ')))

/-- Python `re.sub(r"^[0-9] ", "", tid)`: strip a leading digit-plus-space,
if present. -/
def stripDigitSpace (tid : String) : String :=
  match tid.data with
  | c :: ' ' :: rest => if c.isDigit then String.mk rest else tid
  | _ => tid

/-- Python `"{}".format(x)` where `x` is `element.text`: `None` renders as
the string `"None"`. -/
def textRepr : Option String → String
  | none => "None"
  | some s => s

/-- The constrained vocabulary for `meta` tiers (the `vocab` set of
`vocab_meta`, kept verbatim). -/
def metaVocab : List String := [
  "citoslovce",
  "citoslovce odporu",
  "citoslovce opovržení",
  "citoslovce údivu",
  "citoslovce úleku",
  "dlouhá pauza",
  "hvízdání",
  "kašel",
  "klepání",
  "kýchání",
  "lusknutí prsty",
  "líbání",
  "mlasknutí",
  "mluví ke zvířeti",
  "nadechnutí",
  "odkašlání",
  "plácnutí",
  "pláč",
  "polknutí",
  "pousmání",
  "povzdech",
  "pískání",
  "říhnutí",
  "smrkání",
  "smích",
  "srkání",
  "škytání",
  "tleskání",
  "vydechnutí",
  "zakoktání",
  "zívání"]

/-- The constrained vocabulary for the `META` tier (the `vocab` set of
`vocab_META`, kept verbatim). -/
def metaVocabUC : List String := [
  "cinkání nádobí",
  "dlouhá pauza",
  "domácí spotřebič",
  "hlasitý hovor v pozadí",
  "hluk v pozadí",
  "hra na hudební nástroj",
  "jiné zvíře",
  "klepání",
  "kroky",
  "mňoukání kočky",
  "nesrozumitelný hovor více mluvčích najednou",
  "nábytek",
  "pláč dítěte",
  "počítač a příslušenství",
  "ruch z ulice",
  "rušivý zvuk",
  "smích více mluvčích najednou",
  "štěkání psa",
  "zvonění telefonu",
  "zvuk z rádia",
  "zvuk z televize",
  "zvuky při jídle"]

/-- Python `text in vocab` for `text = element.text`: `None` is never a
member. -/
def textInVocab (text : Option String) (vocab : List String) : Bool :=
  match text with
  | none => false
  | some s => vocab.contains s

/-- The error line emitted by `vocab_meta` for a disallowed value. -/
def metaMsg (url : String) (line : Nat) (text : Option String) : String :=
  url ++ ":" ++ toString line ++ ":0:VerificationError: '" ++ textRepr text
    ++ "' is not allowed in a meta tier."

/-- The error line emitted by `vocab_META` for a disallowed value. -/
def metaMsgUC (url : String) (line : Nat) (text : Option String) : String :=
  url ++ ":" ++ toString line ++ ":0:VerificationError: '" ++ textRepr text
    ++ "' is not allowed in a META tier."

/-- The error line emitted by `tier_attribs` for a `fonetický` tier with
no `@PARENT_REF`. -/
def missingParentMsg (url : String) (line : Nat) : String :=
  url ++ ":" ++ toString line
    ++ ":0:VerificationError: TIERs with @LINGUISTIC_TYPE_REF = 'fonetický' should have a @PARENT_REF attribute."

/-- The error line emitted by `tier_attribs` for mismatching numeric
prefixes. -/
def prefixMsg (url : String) (line : Nat) : String :=
  url ++ ":" ++ toString line
    ++ ":0:VerificationError: The numeric prefixes of @TIER_ID and @PARENT_REF on a TIER with @LINGUISTIC_TYPE_REF = 'fonetický' should match."

/-- The error line emitted by `tier_attribs` for a combination of
attributes not on the allow-list. -/
def combinationMsg (url : String) (line : Nat) (ltref tid : String) : String :=
  url ++ ":" ++ toString line ++ ":0:VerificationError: '" ++ ltref ++ "' and '"
    ++ tid ++ "' is not a permitted combination of the @LINGUISTIC_TYPE_REF and @TIER_ID attributes."

/-- The single error line emitted by `hierarchy`. -/
def hierarchyMsg : String :=
  "ALIGNABLE_ANNOTATIONs are not allowed on a TIER with a @PARENT_REF attribute."

/-- Selector of `TIER` elements whose `@LINGUISTIC_TYPE_REF` equals
`cat` (the XPath test `TIER[@LINGUISTIC_TYPE_REF = cat]`: the attribute
must be present and equal). -/
def tierOfCat (cat : String) (e : XElem) : Bool :=
  e.tag == "TIER" && getAttr e "LINGUISTIC_TYPE_REF" == some cat

/-- The `errors` list built by `vocab_meta`: one entry per
`ANNOTATION_VALUE` under a `meta` tier whose text is not in the
vocabulary. -/
def vocabMetaErrors (t : XTree) : List String :=
  (xpathNested (tierOfCat "meta") (fun e => e.tag == "ANNOTATION_VALUE") t).filterMap
    (fun e =>
      if textInVocab e.text metaVocab then none
      else some (metaMsg t.url e.sourceline e.text))

/-- The `errors` list built by `vocab_META`. -/
def vocabMetaUCErrors (t : XTree) : List String :=
  (xpathNested (tierOfCat "META") (fun e => e.tag == "ANNOTATION_VALUE") t).filterMap
    (fun e =>
      if textInVocab e.text metaVocabUC then none
      else some (metaMsgUC t.url e.sourceline e.text))

/-- Python `valid_combination(ltref, tid)`. -/
def valid_combination (ltref tid : String) : Bool :=
  let tid := stripDigitSpace tid
  [("ortografický", "ort"),
   ("ortografický", "JO"),
   ("fonetický", "fon"),
   ("meta", "meta"),
   ("anom", "anom"),
   ("META", "META")].contains (ltref, tid)

/-- The entries appended to `errors` by the first loop of `tier_attribs`
(`//TIER[@LINGUISTIC_TYPE_REF = 'fonetický' and not(@PARENT_REF)]`). -/
def missingParentErrors (t : XTree) : List String :=
  (xpathAll (fun e => tierOfCat "fonetický" e && (getAttr e "PARENT_REF").isNone) t).map
    (fun e => missingParentMsg t.url e.sourceline)

/-- The entries appended to `errors` by the second loop of `tier_attribs`
(numeric-prefix agreement on all `fonetický` tiers). -/
def prefixErrors (t : XTree) : List String :=
  (xpathAll (tierOfCat "fonetický") t).filterMap
    (fun e =>
      if splitFirst (getAttrD e "TIER_ID" "") == splitFirst (getAttrD e "PARENT_REF" "")
      then none
      else some (prefixMsg t.url e.sourceline))

/-- The entries appended to `errors` by the third loop of `tier_attribs`
(the allow-list of attribute combinations, over all `TIER`s). -/
def combinationErrors (t : XTree) : List String :=
  (xpathAll (fun e => e.tag == "TIER") t).filterMap
    (fun e =>
      let ltref := getAttrD e "LINGUISTIC_TYPE_REF" ""
      let tid := getAttrD e "TIER_ID" ""
      if valid_combination ltref tid then none
      else some (combinationMsg t.url e.sourceline ltref tid))

/-- The full `errors` list built by `tier_attribs`: its three loops run
in sequence over the same accumulator. -/
def tierAttribsErrors (t : XTree) : List String :=
  missingParentErrors t ++ prefixErrors t ++ combinationErrors t

/-- The `errors` list built by `hierarchy`: a single fixed entry when the
query `//TIER[@PARENT_REF]//ALIGNABLE_ANNOTATION` matches anything. -/
def hierarchyErrors (t : XTree) : List String :=
  if (xpathNested (fun e => e.tag == "TIER" && (getAttr e "PARENT_REF").isSome)
       (fun e => e.tag == "ALIGNABLE_ANNOTATION") t).isEmpty
  then []
  else [hierarchyMsg]

/-- Raise `VerificationError(errors)` when `errors` is non-empty, as each
check does at its end. -/
def raiseIfErrors (errors : List String) : Except (List String) Unit :=
  if errors.isEmpty then Except.ok () else Except.error errors

/-- Python `vocab_meta(tree)`. -/
def vocab_meta (t : XTree) : Except (List String) Unit :=
  raiseIfErrors (vocabMetaErrors t)

/-- Python `vocab_META(tree)`. -/
def vocab_META (t : XTree) : Except (List String) Unit :=
  raiseIfErrors (vocabMetaUCErrors t)

/-- Python `tier_attribs(tree)`. -/
def tier_attribs (t : XTree) : Except (List String) Unit :=
  raiseIfErrors (tierAttribsErrors t)

/-- Python `hierarchy(tree)`. -/
def hierarchy (t : XTree) : Except (List String) Unit :=
  raiseIfErrors (hierarchyErrors t)

/-- One iteration of the `for check in (...)` loop of `verify`: run the
check, catch a `VerificationError` and surrender its `error_log`,
contribute nothing when the check succeeds. -/
def runCheck (check : XTree → Except (List String) Unit) (t : XTree) : List String :=
  match check t with
  | Except.ok () => []
  | Except.error e => e

/-- Python `verify(tree)`: run all four checks, accumulate every caught
`error_log`, and raise the aggregate `VerificationError` when the
accumulator is non-empty. -/
def verify (t : XTree) : Except (List String) Unit :=
  let errors :=
    runCheck vocab_meta t ++ runCheck vocab_META t
      ++ runCheck tier_attribs t ++ runCheck hierarchy t
  if errors.isEmpty then Except.ok () else Except.error errors

mutual

/-- The proper descendants of an element, in document order. -/
def descendantsOf : XElem → List XElem
  | .mk _ _ _ _ cs => subtreesOf cs

/-- All elements of a forest of sibling subtrees, in document order. -/
def subtreesOf : List XElem → List XElem
  | [] => []
  | c :: cs => (c :: descendantsOf c) ++ subtreesOf cs

end

/-- All elements of the tree rooted at `e` (the element itself included),
in document order. -/
def elementsOf (e : XElem) : List XElem :=
  e :: descendantsOf e

/-- Specification-side reading of the hierarchy rule, following the spec:
some element tagged `ALIGNABLE_ANNOTATION` sits anywhere beneath a `TIER`
carrying a `@PARENT_REF` attribute. -/
def specForbiddenNesting (t : XTree) : Prop :=
  ∃ a ∈ elementsOf t.root,
    (a.tag = "TIER" ∧ (getAttr a "PARENT_REF").isSome = true) ∧
      ∃ b ∈ descendantsOf a, b.tag = "ALIGNABLE_ANNOTATION"

/-- Catching the exception of a check that raises exactly its non-empty
error list gives back the list. -/
theorem runCheck_raiseIfErrors (f : XTree → List String) (t : XTree) :
    runCheck (fun t => raiseIfErrors (f t)) t = f t := by
  unfold runCheck raiseIfErrors
  cases h : f t <;> simp [h]

/-- A loop appending `f e` whenever `e` fails the test `p` builds the map
of `f` over the failing elements, in order. -/
theorem filterMap_ite (l : List XElem) (p : XElem → Bool) (f : XElem → String) :
    (l.filterMap fun e => if p e then none else some (f e))
      = (l.filter fun e => !p e).map f := by
  induction l with
  | nil => rfl
  | cons e l ih =>
    by_cases h : p e <;> simp [List.filterMap_cons, List.filter_cons, h, ih]

/-- `verify` in closed form: the concatenation of the four error lists,
raised when non-empty. -/
theorem verify_eq (t : XTree) :
    verify t = raiseIfErrors
      (vocabMetaErrors t ++ vocabMetaUCErrors t
        ++ tierAttribsErrors t ++ hierarchyErrors t) := by
  unfold verify vocab_meta vocab_META tier_attribs hierarchy
  rw [runCheck_raiseIfErrors, runCheck_raiseIfErrors, runCheck_raiseIfErrors,
    runCheck_raiseIfErrors]
  rfl


theorem mem_ite_singleton {c : Bool} {x b : XElem} :
    b ∈ (if c = true then [x] else []) ↔ c = true ∧ b = x := by
  cases c <;> simp

mutual

theorem mem_collectE (q p : XElem → Bool) (b : XElem) :
    ∀ (inside : Bool) (e : XElem),
      (b ∈ collectE q p inside e ↔
        q b = true ∧ ((inside = true ∧ b ∈ elementsOf e)
          ∨ ∃ a, a ∈ elementsOf e ∧ p a = true ∧ b ∈ descendantsOf a))
  | inside, XElem.mk tg ats tx ln cs => by
    have hL := mem_collectL q p b (inside || p (XElem.mk tg ats tx ln cs)) cs
    simp only [collectE, List.mem_append, mem_ite_singleton]
    rw [hL]
    simp only [Bool.and_eq_true, Bool.or_eq_true, elementsOf, descendantsOf,
      List.mem_cons]
    constructor
    · rintro (⟨⟨hi, hq⟩, rfl⟩ | ⟨hqb, h⟩)
      · exact ⟨hq, Or.inl ⟨hi, Or.inl rfl⟩⟩
      · rcases h with ⟨hi | hp, hS⟩ | ⟨a, ha, hpa, hb⟩
        · exact ⟨hqb, Or.inl ⟨hi, Or.inr hS⟩⟩
        · exact ⟨hqb, Or.inr ⟨XElem.mk tg ats tx ln cs, Or.inl rfl, hp,
            by simpa [descendantsOf] using hS⟩⟩
        · exact ⟨hqb, Or.inr ⟨a, Or.inr ha, hpa, hb⟩⟩
    · rintro ⟨hqb, h⟩
      rcases h with ⟨hi, rfl | hS⟩ | ⟨a, rfl | ha, hpa, hb⟩
      · exact Or.inl ⟨⟨hi, hqb⟩, rfl⟩
      · exact Or.inr ⟨hqb, Or.inl ⟨Or.inl hi, hS⟩⟩
      · exact Or.inr ⟨hqb, Or.inl ⟨Or.inr hpa, by simpa [descendantsOf] using hb⟩⟩
      · exact Or.inr ⟨hqb, Or.inr ⟨a, ha, hpa, hb⟩⟩

theorem mem_collectL (q p : XElem → Bool) (b : XElem) :
    ∀ (inside : Bool) (cs : List XElem),
      (b ∈ collectL q p inside cs ↔
        q b = true ∧ ((inside = true ∧ b ∈ subtreesOf cs)
          ∨ ∃ a, a ∈ subtreesOf cs ∧ p a = true ∧ b ∈ descendantsOf a))
  | _, [] => by simp [collectL, subtreesOf]
  | inside, c :: cs => by
    have hE := mem_collectE q p b inside c
    have hL := mem_collectL q p b inside cs
    simp only [collectL, List.mem_append]
    rw [hE, hL]
    simp only [subtreesOf, elementsOf, List.mem_append, List.mem_cons,
      or_and_right, exists_or, and_or_left]
    constructor
    · rintro (((h | h) | h | h) | h | h)
      · exact Or.inl (Or.inl (Or.inl h))
      · exact Or.inl (Or.inl (Or.inr h))
      · exact Or.inr (Or.inl (Or.inl h))
      · exact Or.inr (Or.inl (Or.inr h))
      · exact Or.inl (Or.inr h)
      · exact Or.inr (Or.inr h)
    · rintro (((h | h) | h) | (h | h) | h)
      · exact Or.inl (Or.inl (Or.inl h))
      · exact Or.inl (Or.inl (Or.inr h))
      · exact Or.inr (Or.inl h)
      · exact Or.inl (Or.inr (Or.inl h))
      · exact Or.inl (Or.inr (Or.inr h))
      · exact Or.inr (Or.inr h)

end

/-- Membership in a nested query `//*[p]//*[q]`: the element satisfies
`q` and sits strictly below some element of the document satisfying
`p`. -/
theorem mem_xpathNested (p q : XElem → Bool) (t : XTree) (b : XElem) :
    b ∈ xpathNested p q t ↔
      q b = true ∧ ∃ a, a ∈ elementsOf t.root ∧ p a = true ∧ b ∈ descendantsOf a := by
  simpa [xpathNested] using mem_collectE q p b false t.root

/-- A nested query matches something exactly when the document contains
the corresponding nesting pattern. -/
theorem xpathNested_ne_nil_iff (p q : XElem → Bool) (t : XTree) :
    xpathNested p q t ≠ [] ↔
      ∃ a, a ∈ elementsOf t.root ∧ p a = true
        ∧ ∃ b, b ∈ descendantsOf a ∧ q b = true := by
  constructor
  · intro h
    obtain ⟨b, hb⟩ := List.exists_mem_of_ne_nil _ h
    rw [mem_xpathNested] at hb
    obtain ⟨hq, a, ha, hp, hbd⟩ := hb
    exact ⟨a, ha, hp, b, hbd, hq⟩
  · rintro ⟨a, ha, hp, b, hbd, hq⟩ hnil
    have hb : b ∈ xpathNested p q t :=
      (mem_xpathNested p q t b).mpr ⟨hq, a, ha, hp, hbd⟩
    rw [hnil] at hb
    exact (List.not_mem_nil b) hb

/-- No allow-list pair has an empty category, so an empty
`@LINGUISTIC_TYPE_REF` never forms a valid combination. -/
theorem valid_combination_empty_ltref (tid : String) :
    valid_combination "" tid = false := by
  simp [valid_combination]

/-- No allow-list pair has an empty id, so an empty `@TIER_ID` never
forms a valid combination. -/
theorem valid_combination_empty_tid (ltref : String) :
    valid_combination ltref "" = false := by
  simp [valid_combination, stripDigitSpace]

/-- `valid_combination` decides membership of the pair (category,
normalized id) in the fixed six-pair allow-list. -/
theorem valid_combination_iff (ltref tid : String) :
    valid_combination ltref tid = true ↔
      (ltref, stripDigitSpace tid) ∈ [
        ("ortografický", "ort"),
        ("ortografický", "JO"),
        ("fonetický", "fon"),
        ("meta", "meta"),
        ("anom", "anom"),
        ("META", "META")] := by
  simp only [valid_combination, List.contains, List.elem_iff]

/-- The `meta` vocabulary check in filter-then-map form. -/
theorem vocabMetaErrors_eq (t : XTree) :
    vocabMetaErrors t =
      ((xpathNested (tierOfCat "meta") (fun e => e.tag == "ANNOTATION_VALUE") t).filter
        (fun e => !textInVocab e.text metaVocab)).map
        (fun e => metaMsg t.url e.sourceline e.text) := by
  unfold vocabMetaErrors
  exact filterMap_ite _ _ _

/-- The `META` vocabulary check in filter-then-map form. -/
theorem vocabMetaUCErrors_eq (t : XTree) :
    vocabMetaUCErrors t =
      ((xpathNested (tierOfCat "META") (fun e => e.tag == "ANNOTATION_VALUE") t).filter
        (fun e => !textInVocab e.text metaVocabUC)).map
        (fun e => metaMsgUC t.url e.sourceline e.text) := by
  unfold vocabMetaUCErrors
  exact filterMap_ite _ _ _

/-- The numeric-prefix sub-check in filter-then-map form. -/
theorem prefixErrors_eq (t : XTree) :
    prefixErrors t =
      ((xpathAll (tierOfCat "fonetický") t).filter
        (fun e => !(splitFirst (getAttrD e "TIER_ID" "")
                      == splitFirst (getAttrD e "PARENT_REF" "")))).map
        (fun e => prefixMsg t.url e.sourceline) := by
  unfold prefixErrors
  exact filterMap_ite _ _ _

/-- The combination sub-check in filter-then-map form. -/
theorem combinationErrors_eq (t : XTree) :
    combinationErrors t =
      ((xpathAll (fun e => e.tag == "TIER") t).filter
        (fun e => !valid_combination (getAttrD e "LINGUISTIC_TYPE_REF" "")
                    (getAttrD e "TIER_ID" ""))).map
        (fun e => combinationMsg t.url e.sourceline
          (getAttrD e "LINGUISTIC_TYPE_REF" "") (getAttrD e "TIER_ID" "")) := by
  unfold combinationErrors
  exact filterMap_ite _ _ _

/-- An `ANNOTATION_VALUE` leaf. -/
def avElem (line : Nat) (txt : Option String) : XElem :=
  .mk "ANNOTATION_VALUE" [] txt line []

/-- A `TIER` element. -/
def tierElem (line : Nat) (attrs : List (String × String)) (cs : List XElem) : XElem :=
  .mk "TIER" attrs none line cs

/-- A document root wrapping a list of tiers. -/
def docRoot (cs : List XElem) : XElem :=
  .mk "ANNOTATION_DOCUMENT" [] none 1 cs

/-- A document with one out-of-vocabulary `meta` value and one alignable
annotation below a tier carrying `@PARENT_REF`: it triggers both a
vocabulary violation and a hierarchy violation. -/
def exBoth : XTree :=
  ⟨"doc.eaf", docRoot
    [tierElem 2 [("TIER_ID", "meta"), ("LINGUISTIC_TYPE_REF", "meta")]
      [avElem 3 (some "škytavka")],
     tierElem 4 [("TIER_ID", "1 fon"), ("LINGUISTIC_TYPE_REF", "fonetický"),
                 ("PARENT_REF", "1 ort")]
      [.mk "ALIGNABLE_ANNOTATION" [] none 5 []]]⟩

/-- A document whose only tier is `TIER_ID="1 fon"`,
`LINGUISTIC_TYPE_REF="fonetický"`, with no `@PARENT_REF` (the situation of
Scenario C of the spec). -/
def exFonNoParent : XTree :=
  ⟨"doc.eaf", docRoot
    [tierElem 2 [("TIER_ID", "1 fon"), ("LINGUISTIC_TYPE_REF", "fonetický")] []]⟩

/-- A document whose first tier (line 2) only violates the combination
rule while its second tier (line 3) violates the parent-required rule. -/
def exOrder : XTree :=
  ⟨"doc.eaf", docRoot
    [tierElem 2 [("TIER_ID", "xyz"), ("LINGUISTIC_TYPE_REF", "meta")] [],
     tierElem 3 [("TIER_ID", "1 fon"), ("LINGUISTIC_TYPE_REF", "fonetický")] []]⟩

/-- Claim C1: the aggregator runs all four checks on one document — a
violation raised by any one check never prevents the remaining checks,
since the aggregate error is always the concatenation of all four error
lists; `verify` succeeds exactly when all four checks are clean; and a
document triggering both a vocabulary violation and a hierarchy violation
reports both. -/
theorem verify_runs_all_checks (t : XTree) :
    (verify t = Except.ok () ↔
      vocabMetaErrors t = [] ∧ vocabMetaUCErrors t = []
        ∧ tierAttribsErrors t = [] ∧ hierarchyErrors t = []) ∧
    (∀ l, verify t = Except.error l →
      l = vocabMetaErrors t ++ vocabMetaUCErrors t
            ++ tierAttribsErrors t ++ hierarchyErrors t) ∧
    verify exBoth = Except.error
      [metaMsg "doc.eaf" 3 (some "škytavka"), hierarchyMsg] := by
  refine ⟨?_, ?_, by rfl⟩
  · rw [verify_eq]
    unfold raiseIfErrors
    constructor
    · intro h
      by_cases hz : (vocabMetaErrors t ++ vocabMetaUCErrors t
          ++ tierAttribsErrors t ++ hierarchyErrors t).isEmpty
      · rw [List.isEmpty_iff] at hz
        simpa [List.append_eq_nil] using hz
      · rw [if_neg hz] at h
        exact absurd h (by simp)
    · rintro ⟨h1, h2, h3, h4⟩
      simp [h1, h2, h3, h4]
  · intro l h
    rw [verify_eq] at h
    unfold raiseIfErrors at h
    by_cases hz : (vocabMetaErrors t ++ vocabMetaUCErrors t
        ++ tierAttribsErrors t ++ hierarchyErrors t).isEmpty
    · rw [if_pos hz] at h
      exact absurd h (by simp)
    · rw [if_neg hz] at h
      injection h with h'
      exact h'.symm

/-- Claim C2 counterexample: the tier `TIER_ID="1 fon"`,
`LINGUISTIC_TYPE_REF="fonetický"` with no `@PARENT_REF` — the claim's own
example — receives two violations from the attribute-consistency checker,
not exactly one: the missing-`@PARENT_REF` violation and, because the
absent `@PARENT_REF` is read back as the empty string whose prefix `""`
differs from `"1"`, also the prefix-mismatch violation. -/
theorem fon_tier_without_parent_two_violations :
    tierAttribsErrors exFonNoParent
        = [missingParentMsg "doc.eaf" 2, prefixMsg "doc.eaf" 2]
      ∧ (tierAttribsErrors exFonNoParent).length = 2 := by
  exact ⟨rfl, rfl⟩

/-- Claim C2 (amended): for every TIER with `LINGUISTIC_TYPE_REF`
`'fonetický'` that lacks `@PARENT_REF`, the attribute-consistency checker
emits exactly one "missing PARENT_REF" violation — one entry per such
tier, independent of the values of its other attributes, heading the
checker's output — though the same tier may additionally trigger
prefix-mismatch and invalid-combination violations. -/
theorem missing_parent_one_violation_each (t : XTree) :
    ∃ rest, tierAttribsErrors t =
      (xpathAll (fun e => tierOfCat "fonetický" e && (getAttr e "PARENT_REF").isNone) t).map
        (fun e => missingParentMsg t.url e.sourceline) ++ rest :=
  ⟨prefixErrors t ++ combinationErrors t, by
    simp [tierAttribsErrors, missingParentErrors]⟩

/-- Claim C3 counterexample: the label `dlouhá pauza` belongs to both
fixed vocabularies, so they are not disjoint. -/
theorem vocab_overlap :
    "dlouhá pauza" ∈ metaVocab ∧ "dlouhá pauza" ∈ metaVocabUC := by
  decide

/-- Claim C3 (amended): the two fixed controlled vocabularies overlap in
exactly two labels, `dlouhá pauza` and `klepání`; apart from these two, no
label string belongs to both. -/
theorem vocab_overlap_exactly_two :
    metaVocab.filter (fun s => metaVocabUC.contains s)
        = ["dlouhá pauza", "klepání"]
      ∧ metaVocabUC.filter (fun s => metaVocab.contains s)
        = ["dlouhá pauza", "klepání"] := by
  exact ⟨rfl, rfl⟩

/-- Claim C4: for annotation values under a `meta`-category tier, the
check emits no violation exactly when every value's text belongs to the
fixed vocabulary, and it emits exactly one violation — whose message
names the value — for each value whose text falls outside it. -/
theorem vocab_meta_value_characterization (t : XTree) :
    vocabMetaErrors t =
      ((xpathNested (tierOfCat "meta") (fun e => e.tag == "ANNOTATION_VALUE") t).filter
        (fun e => !textInVocab e.text metaVocab)).map
        (fun e => metaMsg t.url e.sourceline e.text) ∧
    (vocabMetaErrors t = [] ↔
      ∀ e ∈ xpathNested (tierOfCat "meta") (fun e => e.tag == "ANNOTATION_VALUE") t,
        textInVocab e.text metaVocab = true) := by
  refine ⟨vocabMetaErrors_eq t, ?_⟩
  rw [vocabMetaErrors_eq]
  simp [List.map_eq_nil_iff, List.filter_eq_nil_iff]

/-- Claim C5: for `fonetický` tiers the prefix-agreement sub-check splits
`@TIER_ID` and `@PARENT_REF` at the first space and compares the leading
substrings; a tier with differing substrings contributes exactly one
prefix-mismatch violation, and one with equal substrings contributes
nothing to this sub-check.  In particular `"1 fon"` versus `"2 ort"`
mismatch (`1` versus `2`) and `"2 fon"` versus `"2 ort"` agree (`2`). -/
theorem prefix_rule_characterization (t : XTree) :
    prefixErrors t =
      ((xpathAll (tierOfCat "fonetický") t).filter
        (fun e => !(splitFirst (getAttrD e "TIER_ID" "")
                      == splitFirst (getAttrD e "PARENT_REF" "")))).map
        (fun e => prefixMsg t.url e.sourceline) ∧
    splitFirst "1 fon" = "1" ∧ splitFirst "2 ort" = "2"
      ∧ splitFirst "2 fon" = "2" :=
  ⟨prefixErrors_eq t, rfl, rfl, rfl⟩

/-- Claim C6: for every TIER, the combination sub-check normalizes
`@TIER_ID` by stripping a leading digit-plus-space and emits exactly one
violation naming both attribute values when the (category, normalized id)
pair is outside the fixed six-pair allow-list, and no violation when the
pair is on it; the pairs ("ortografický","ort") and ("meta","meta") are
on the list. -/
theorem combination_rule_characterization (t : XTree) :
    combinationErrors t =
      ((xpathAll (fun e => e.tag == "TIER") t).filter
        (fun e => !valid_combination (getAttrD e "LINGUISTIC_TYPE_REF" "")
                    (getAttrD e "TIER_ID" ""))).map
        (fun e => combinationMsg t.url e.sourceline
          (getAttrD e "LINGUISTIC_TYPE_REF" "") (getAttrD e "TIER_ID" "")) ∧
    (∀ ltref tid, valid_combination ltref tid = true ↔
      (ltref, stripDigitSpace tid) ∈ [
        ("ortografický", "ort"),
        ("ortografický", "JO"),
        ("fonetický", "fon"),
        ("meta", "meta"),
        ("anom", "anom"),
        ("META", "META")]) ∧
    valid_combination "ortografický" "1 ort" = true ∧
    valid_combination "meta" "meta" = true :=
  ⟨combinationErrors_eq t, valid_combination_iff, rfl, rfl⟩

/-- Claim C7: the hierarchy check emits a violation exactly when some
`ALIGNABLE_ANNOTATION` sits anywhere beneath a TIER carrying
`@PARENT_REF` (`specForbiddenNesting` spells the nesting out as an
existential over the tree), emits nothing when no such nesting exists,
and emits at most a single violation for the whole document however many
offending elements exist. -/
theorem hierarchy_nesting_characterization (t : XTree) :
    (hierarchyErrors t = [hierarchyMsg] ↔ specForbiddenNesting t) ∧
    (hierarchyErrors t = [] ↔ ¬ specForbiddenNesting t) ∧
    (hierarchyErrors t).length ≤ 1 := by
  have key : xpathNested (fun e => e.tag == "TIER" && (getAttr e "PARENT_REF").isSome)
      (fun e => e.tag == "ALIGNABLE_ANNOTATION") t ≠ [] ↔ specForbiddenNesting t := by
    rw [xpathNested_ne_nil_iff]
    unfold specForbiddenNesting
    constructor
    · rintro ⟨a, ha, hp, b, hb, hq⟩
      rw [Bool.and_eq_true] at hp
      exact ⟨a, ha, ⟨by simpa using hp.1, hp.2⟩, b, hb, by simpa using hq⟩
    · rintro ⟨a, ha, ⟨h1, h2⟩, b, hb, hq⟩
      exact ⟨a, ha, by simp [h1, h2], b, hb, by simp [hq]⟩
  unfold hierarchyErrors
  by_cases hz : (xpathNested (fun e => e.tag == "TIER" && (getAttr e "PARENT_REF").isSome)
      (fun e => e.tag == "ALIGNABLE_ANNOTATION") t).isEmpty
  · rw [if_pos hz]
    rw [List.isEmpty_iff] at hz
    have hns : ¬ specForbiddenNesting t := fun h => (key.mpr h) hz
    simp [hns, hierarchyMsg]
  · rw [if_neg hz]
    have hne : xpathNested (fun e => e.tag == "TIER" && (getAttr e "PARENT_REF").isSome)
        (fun e => e.tag == "ALIGNABLE_ANNOTATION") t ≠ [] := by
      simpa [List.isEmpty_iff] using hz
    have hs := key.mp hne
    simp [hs]

/-- An aggregate error is always the concatenation of the four checks'
error lists, in registration order. -/
theorem verify_error_eq (t : XTree) (l : List String)
    (h : verify t = Except.error l) :
    l = vocabMetaErrors t ++ vocabMetaUCErrors t
          ++ tierAttribsErrors t ++ hierarchyErrors t := by
  rw [verify_eq] at h
  unfold raiseIfErrors at h
  by_cases hz : (vocabMetaErrors t ++ vocabMetaUCErrors t
      ++ tierAttribsErrors t ++ hierarchyErrors t).isEmpty
  · rw [if_pos hz] at h
    exact absurd h (by simp)
  · rw [if_neg hz] at h
    injection h with h'
    exact h'.symm

/-- Claim C8 counterexample: in `exOrder` the tier at line 2 precedes the
tier at line 3 in document order and only the combination rule fires on
it, yet its violation is emitted last by the attribute-consistency check,
after both violations of the line-3 tier: within this check violations
are grouped by sub-rule, not by document order. -/
theorem tier_attribs_not_document_order :
    tierAttribsErrors exOrder
      = [missingParentMsg "doc.eaf" 3, prefixMsg "doc.eaf" 3,
         combinationMsg "doc.eaf" 2 "meta" "xyz"] := by
  rfl

/-- Claim C8 (amended): the aggregate violation set is ordered by
check-registration order (meta vocabulary, META vocabulary, attribute
consistency, hierarchy); within each vocabulary check violations appear
in document order; within the attribute-consistency check they are
grouped by sub-rule — all missing-`@PARENT_REF` violations, then all
prefix-mismatch violations, then all invalid-combination violations —
with document order inside each group. -/
theorem violation_ordering (t : XTree) :
    (∀ l, verify t = Except.error l →
      l = vocabMetaErrors t ++ vocabMetaUCErrors t
            ++ tierAttribsErrors t ++ hierarchyErrors t) ∧
    List.Sublist (vocabMetaErrors t)
      ((xpathNested (tierOfCat "meta") (fun e => e.tag == "ANNOTATION_VALUE") t).map
        (fun e => metaMsg t.url e.sourceline e.text)) ∧
    List.Sublist (vocabMetaUCErrors t)
      ((xpathNested (tierOfCat "META") (fun e => e.tag == "ANNOTATION_VALUE") t).map
        (fun e => metaMsgUC t.url e.sourceline e.text)) ∧
    tierAttribsErrors t
      = missingParentErrors t ++ prefixErrors t ++ combinationErrors t ∧
    missingParentErrors t
      = (xpathAll (fun e => tierOfCat "fonetický" e && (getAttr e "PARENT_REF").isNone) t).map
          (fun e => missingParentMsg t.url e.sourceline) ∧
    List.Sublist (prefixErrors t)
      ((xpathAll (tierOfCat "fonetický") t).map
        (fun e => prefixMsg t.url e.sourceline)) ∧
    List.Sublist (combinationErrors t)
      ((xpathAll (fun e => e.tag == "TIER") t).map
        (fun e => combinationMsg t.url e.sourceline
          (getAttrD e "LINGUISTIC_TYPE_REF" "") (getAttrD e "TIER_ID" ""))) := by
  refine ⟨fun l h => verify_error_eq t l h, ?_, ?_, rfl, rfl, ?_, ?_⟩
  · rw [vocabMetaErrors_eq]
    exact (List.filter_sublist _).map _
  · rw [vocabMetaUCErrors_eq]
    exact (List.filter_sublist _).map _
  · rw [prefixErrors_eq]
    exact (List.filter_sublist _).map _
  · rw [combinationErrors_eq]
    exact (List.filter_sublist _).map _

/-- Claim C9: the vocabulary checker is total — it is a function
returning an error list for every document — and an `ANNOTATION_VALUE`
with absent text under a `meta`-category tier counts as a value outside
the vocabulary and is reported as a violation (rendering as `None`)
rather than crashing the check. -/
theorem vocab_meta_total_none_reported (t : XTree) :
    textInVocab none metaVocab = false ∧
    ∀ e ∈ xpathNested (tierOfCat "meta") (fun e => e.tag == "ANNOTATION_VALUE") t,
      e.text = none → metaMsg t.url e.sourceline none ∈ vocabMetaErrors t := by
  refine ⟨rfl, fun e he ht => ?_⟩
  rw [vocabMetaErrors_eq]
  have hf : e ∈ (xpathNested (tierOfCat "meta")
      (fun e => e.tag == "ANNOTATION_VALUE") t).filter
      (fun e => !textInVocab e.text metaVocab) :=
    List.mem_filter.mpr ⟨he, by simp [ht, textInVocab]⟩
  have hm := List.mem_map_of_mem
    (fun e => metaMsg t.url e.sourceline e.text) hf
  simpa [ht] using hm

/-- Claim C10: a TIER lacking `@LINGUISTIC_TYPE_REF` or `@TIER_ID` is
processed with the empty string substituted for the missing attribute —
no attribute-access error is possible — and since no allow-list pair has
an empty component, such a tier always receives exactly one
invalid-combination violation (one entry per tier in the combination
sub-check's output). -/
theorem combination_handles_missing_attrs (t : XTree) :
    combinationErrors t =
      ((xpathAll (fun e => e.tag == "TIER") t).filter
        (fun e => !valid_combination (getAttrD e "LINGUISTIC_TYPE_REF" "")
                    (getAttrD e "TIER_ID" ""))).map
        (fun e => combinationMsg t.url e.sourceline
          (getAttrD e "LINGUISTIC_TYPE_REF" "") (getAttrD e "TIER_ID" "")) ∧
    (∀ tid, valid_combination "" tid = false) ∧
    (∀ ltref, valid_combination ltref "" = false) ∧
    ∀ e ∈ xpathAll (fun e => e.tag == "TIER") t,
      (getAttr e "LINGUISTIC_TYPE_REF" = none ∨ getAttr e "TIER_ID" = none) →
      combinationMsg t.url e.sourceline (getAttrD e "LINGUISTIC_TYPE_REF" "")
        (getAttrD e "TIER_ID" "") ∈ combinationErrors t := by
  refine ⟨combinationErrors_eq t, valid_combination_empty_ltref,
    valid_combination_empty_tid, fun e he hmiss => ?_⟩
  have hv : valid_combination (getAttrD e "LINGUISTIC_TYPE_REF" "")
      (getAttrD e "TIER_ID" "") = false := by
    rcases hmiss with h | h
    · have hz : getAttrD e "LINGUISTIC_TYPE_REF" "" = "" := by
        simp [getAttrD, h]
      rw [hz]
      exact valid_combination_empty_ltref _
    · have hz : getAttrD e "TIER_ID" "" = "" := by
        simp [getAttrD, h]
      rw [hz]
      exact valid_combination_empty_tid _
  rw [combinationErrors_eq]
  exact List.mem_map_of_mem _ (List.mem_filter.mpr ⟨he, by simp [hv]⟩)
